import Mathlib

/-!
Verification of the tanaghum yt-dlp audio extraction service
(`ytdlp-service/app.py`), a Flask app exposing `/extract`, `/download`,
`/info`.  The Python code is shallowly embedded below: each handler is a
pure function of the request parameters plus the outcome of the external
`yt-dlp` invocation (modelled as a function argument), and JSON responses
are association lists mirroring the dict literals of the source.
Python-specific semantics (truthiness of `or` and `if`, `in` substring
tests, `str.lower`, slicing, `list.sort(key=..., reverse=True)` being a
stable descending sort) are modelled by the `py*` helpers.
-/

/-- Python truthiness of an optional string: `None` and `""` are falsy. -/
def pyTruthyStr : Option String → Bool
  | none => false
  | some s => !s.toList.isEmpty

/-- Python `pat in s` substring test. -/
def pyIn (pat s : String) : Bool := decide (pat.toList <:+: s.toList)

/-- Python `s.startswith(pre)`. -/
def pyStartswith (s pre : String) : Bool := decide (pre.toList <+: s.toList)

/-- Python `len(s)` (number of characters). -/
def pyLen (s : String) : Nat := s.toList.length

/-- Python `s.lower()`. -/
def pyLower (s : String) : String := ⟨s.toList.map Char.toLower⟩

/-- Python `s[:n]` slicing of a string. -/
def pySlice (s : String) (n : Nat) : String := ⟨s.toList.take n⟩

/-- Python `a or b` for strings: `a` when non-empty, else `b`. -/
def pyOrStr (a b : String) : String := if a.toList.isEmpty then b else a

/-- Python `a or d` where `a` is an optional number (`None` and `0` falsy). -/
def pyOrNat : Option Nat → Nat → Nat
  | none, d => d
  | some n, d => if n = 0 then d else n

/-- Python `a or b` for two optional numbers (`None` and `0` falsy). -/
def pyOrOptNat (a b : Option Nat) : Option Nat :=
  match a with
  | none => b
  | some n => if n = 0 then b else some n

/-- A JSON value as produced by `jsonify`; numbers in this service are
natural numbers (durations, bitrates, sizes, counts). -/
inductive JsonValue where
  | null
  | bool (b : Bool)
  | num (n : Nat)
  | str (s : String)
deriving DecidableEq, Repr

/-- `None`-defaulting conversion of an optional string to JSON
(Python `dict.get` of a missing key serialises as `null`). -/
def jStr : Option String → JsonValue
  | none => JsonValue.null
  | some s => JsonValue.str s

/-- `None`-defaulting conversion of an optional number to JSON. -/
def jNum : Option Nat → JsonValue
  | none => JsonValue.null
  | some n => JsonValue.num n

/-- One entry of yt-dlp's `formats` list, with the keys the service reads
(`acodec`, `vcodec`, `abr`, `tbr`, `ext`, `url`, `filesize`); a `none`
field models a missing key (`dict.get` returns `None`). -/
structure FormatRecord where
  acodec : Option String := none
  vcodec : Option String := none
  abr : Option Nat := none
  tbr : Option Nat := none
  ext : Option String := none
  url : Option String := none
  filesize : Option Nat := none
deriving DecidableEq, Repr

/-- The parsed yt-dlp JSON document, restricted to the keys the service
reads. -/
structure Info where
  id : Option String := none
  title : Option String := none
  duration : Option Nat := none
  thumbnail : Option String := none
  uploader : Option String := none
  description : Option String := none
  view_count : Option Nat := none
  upload_date : Option String := none
  formats : List FormatRecord := []
deriving DecidableEq, Repr, Inhabited

/-- `f.get('acodec') != 'none' and f.get('vcodec') == 'none'`
(app.py line 157): the audio-only filter. -/
def isAudioOnly (f : FormatRecord) : Bool :=
  decide (f.acodec ≠ some "none") && decide (f.vcodec = some "none")

/-- `f.get('acodec') != 'none'` (app.py line 161): the any-audio
fallback filter. -/
def hasAudio (f : FormatRecord) : Bool := decide (f.acodec ≠ some "none")

/-- `x.get('abr') or x.get('tbr') or 0` (app.py line 167): the sort key. -/
def sortKey (f : FormatRecord) : Nat := pyOrNat f.abr (pyOrNat f.tbr 0)

/-- Insert `x` into a descending-sorted list, after any element whose key
is at least `key x` (so earlier list elements win ties). -/
def insortDesc {α : Type} (key : α → Nat) (x : α) : List α → List α
  | [] => [x]
  | y :: ys => if key y ≤ key x then x :: y :: ys else y :: insortDesc key x ys

/-- Python `list.sort(key=..., reverse=True)`: a stable descending
insertion sort by `key`. -/
def sortDescBy {α : Type} (key : α → Nat) : List α → List α
  | [] => []
  | x :: xs => insortDesc key x (sortDescBy key xs)

/-- Lines 156–168 of app.py: filter audio-only records, fall back to
any-audio records, report failure (`none`) when that is still empty,
otherwise stable-sort descending by bitrate and take the head. -/
def bestAudio (formats : List FormatRecord) : Option FormatRecord :=
  let audioOnly := formats.filter isAudioOnly
  let audio_formats := if audioOnly.isEmpty then formats.filter hasAudio else audioOnly
  if audio_formats.isEmpty then none
  else (sortDescBy sortKey audio_formats).head?

/-- `https://www.youtube.com/watch?v=<id>` construction. -/
def watchUrl (u : String) : String := "https://www.youtube.com/watch?v=" ++ u

/-- Lines 123–126 of app.py (`/extract` normalizer): two overlapping
branches, wrapping every input that does not start with `http`. -/
def normalizeExtract (u : String) : String :=
  if pyLen u = 11 && !pyStartswith u "http" then watchUrl u
  else if !pyStartswith u "http" then watchUrl u
  else u

/-- Lines 207–208 of app.py (`/download` normalizer): wraps exactly the
length-11 inputs, with no scheme check. -/
def normalizeDownload (u : String) : String :=
  if pyLen u = 11 then watchUrl u else u

/-- Lines 249–250 of app.py (`/info` normalizer): wraps exactly the
length-11 inputs, with no scheme check. -/
def normalizeInfo (u : String) : String :=
  if pyLen u = 11 then watchUrl u else u

/-- `'pot' in error_msg.lower() or 'provider' in error_msg.lower()`
(app.py line 68): the token-provider heuristic. -/
def potRelated (msg : String) : Bool :=
  pyIn "pot" (pyLower msg) || pyIn "provider" (pyLower msg)

/-- `result.stderr or result.stdout or 'Unknown error'` (app.py line 66). -/
def rawErrorMsg (stdoutS stderrS : String) : String :=
  pyOrStr stderrS (pyOrStr stdoutS "Unknown error")

/-- Lines 65–70 of app.py: the error message reported for a non-zero
yt-dlp exit, reclassified with a POT-provider marker when the captured
text is token-provider-related. -/
def runYtdlpFailureMsg (stdoutS stderrS : String) : String :=
  let error_msg := rawErrorMsg stdoutS stderrS
  if potRelated error_msg then "POT provider issue: " ++ error_msg else error_msg

/-- The `(None, error_msg)` pair `run_ytdlp` returns on a non-zero exit
of the subprocess (app.py lines 65–70). -/
def run_ytdlp_nonzeroExit (stdoutS stderrS : String) : Option Info × Option String :=
  (none, some (runYtdlpFailureMsg stdoutS stderrS))

/-- The suggestion text of app.py line 142. -/
def botSuggestion : String :=
  "This video requires authentication. Try using YouTube captions instead, or upload audio directly for Whisper transcription."

/-- The replacement error text of app.py line 145. -/
def blockedErrorMsg : String :=
  "Audio extraction blocked by YouTube. Use captions or Whisper transcription."

/-- Lines 132–142 of app.py: the `if`/`elif` classification of an
extractor failure message into a status code and an optional suggestion. -/
def extractStatusSuggestion (error : String) : Nat × Option String :=
  if pyIn "Video unavailable" error then (404, none)
  else if pyIn "Private video" error then (403, none)
  else if pyIn "not a bot" (pyLower error) || pyIn "LOGIN_REQUIRED" error then
    (403, some botSuggestion)
  else (400, none)

/-- `'LOGIN_REQUIRED' in error or 'not a bot' in error.lower()`
(app.py line 148). -/
def blockedFlag (error : String) : Bool :=
  pyIn "LOGIN_REQUIRED" error || pyIn "not a bot" (pyLower error)

/-- Lines 131–150 of app.py: the full error response of `/extract`
(status code and JSON body). -/
def extractFailureResponse (error : String) : Nat × List (String × JsonValue) :=
  let sc := extractStatusSuggestion error
  (sc.1,
   [("error", JsonValue.str (if sc.2.isSome then blockedErrorMsg else error)),
    ("available", JsonValue.bool false),
    ("suggestion", match sc.2 with | none => JsonValue.null | some s => JsonValue.str s),
    ("blocked", JsonValue.bool (blockedFlag error))])

/-- Lines 170–192 of app.py: the success body of `/extract`, in `info`
mode or the default `url` mode. -/
def extractSuccessBody (output_format : String) (info : Info) (best : FormatRecord) :
    List (String × JsonValue) :=
  if output_format = "info" then
    [("videoId", jStr info.id),
     ("title", jStr info.title),
     ("duration", jNum info.duration),
     ("thumbnail", jStr info.thumbnail),
     ("audioUrl", jStr best.url),
     ("mimeType", jStr best.ext),
     ("bitrate", jNum (pyOrOptNat best.abr best.tbr)),
     ("filesize", jNum best.filesize),
     ("available", JsonValue.bool true)]
  else
    [("videoId", jStr info.id),
     ("available", JsonValue.bool true),
     ("audioUrl", jStr best.url),
     ("mimeType", JsonValue.str ("audio/" ++ best.ext.getD "webm")),
     ("duration", jNum info.duration),
     ("title", jStr info.title)]

/-- The HTTP method of a request to `/extract`. -/
inductive Method where
  | get
  | post
deriving DecidableEq, Repr

/-- Lines 101–192 of app.py: the `/extract` handler as a pure function of
the request parameters (`bodyUrl`/`bodyFormat` from the JSON body,
`queryUrl`/`queryFormat` from the query string; `none` models an absent
key) and of the yt-dlp outcome `run`.  Returns status code and JSON body. -/
def extract_audio (method : Method) (bodyUrl queryUrl bodyFormat queryFormat : Option String)
    (run : String → Option Info × Option String) : Nat × List (String × JsonValue) :=
  let video_url0 := match method with | .post => bodyUrl | .get => queryUrl
  let output_format := (match method with | .post => bodyFormat | .get => queryFormat).getD "url"
  if !pyTruthyStr video_url0 then
    (400, [("error", JsonValue.str "Missing url parameter")])
  else
    let video_url := normalizeExtract (video_url0.getD "")
    let res := run video_url
    if pyTruthyStr res.2 then
      extractFailureResponse (res.2.getD "")
    else if res.1.isNone then
      (404, [("error", JsonValue.str "Could not extract video info"),
             ("available", JsonValue.bool false)])
    else
      let info := res.1.getD default
      match bestAudio info.formats with
      | none => (404, [("error", JsonValue.str "No audio formats available"),
                       ("available", JsonValue.bool false)])
      | some best => (200, extractSuccessBody output_format info best)

/-- Lines 195–210 of app.py: the URL that `/download` hands to
`run_ytdlp`, or `none` when the handler answers 400 before invoking it
(the streaming relay after the invocation is I/O and is not modelled). -/
def download_audio_requestUrl (queryUrl : Option String) : Option String :=
  if !pyTruthyStr queryUrl then none
  else some (normalizeDownload (queryUrl.getD ""))

/-- Lines 257–266 of app.py: the metadata-only body of `/info`. -/
def videoInfoBody (info : Info) : List (String × JsonValue) :=
  [("videoId", jStr info.id),
   ("title", jStr info.title),
   ("duration", jNum info.duration),
   ("thumbnail", jStr info.thumbnail),
   ("channel", jStr info.uploader),
   ("description", JsonValue.str (pySlice (info.description.getD "") 500)),
   ("viewCount", jNum info.view_count),
   ("uploadDate", jStr info.upload_date)]

/-- Lines 241–266 of app.py: the `/info` handler as a pure function of
the `url` query parameter and the yt-dlp outcome `run`. -/
def video_info (queryUrl : Option String)
    (run : String → Option Info × Option String) : Nat × List (String × JsonValue) :=
  if !pyTruthyStr queryUrl then
    (400, [("error", JsonValue.str "Missing url parameter")])
  else
    let video_url := normalizeInfo (queryUrl.getD "")
    let res := run video_url
    if pyTruthyStr res.2 then
      (500, [("error", JsonValue.str (res.2.getD ""))])
    else
      (200, videoInfoBody (res.1.getD default))

/-- Specification-side selector: the first element of `l` attaining the
maximal key, i.e. maximum by `key` with ties broken by original list
order.  Compared below with the head of the stable descending sort that
the code computes. -/
def firstMaxBy {α : Type} (key : α → Nat) (l : List α) : Option α :=
  l.find? (fun x => l.all (fun y => decide (key y ≤ key x)))

/-- A 501-character description used to witness the truncation claim. -/
def longDescription : String := ⟨List.replicate 501 'a'⟩

/-- An extraction result whose description exceeds 500 characters. -/
def longDescInfo : Info := { id := some "dQw4w9WgXcQ", description := some longDescription }

/-! ## Lemmas about the stable descending sort -/

/-- Predicates that agree on the members of `l` give the same `find?`. -/
theorem find?_congr_mem {α : Type} (p q : α → Bool) (l : List α)
    (h : ∀ a ∈ l, p a = q a) : l.find? p = l.find? q := by
  induction l with
  | nil => rfl
  | cons a t ih =>
    have ha : p a = q a := h a (List.mem_cons_self a t)
    by_cases hp : p a = true
    · rw [List.find?_cons_of_pos t hp, List.find?_cons_of_pos t (by rw [← ha]; exact hp)]
    · rw [List.find?_cons_of_neg t hp, List.find?_cons_of_neg t (by rw [← ha]; exact hp)]
      exact ih (fun x hx => h x (List.mem_cons_of_mem a hx))

theorem mem_insortDesc {α : Type} (key : α → Nat) (x a : α) (l : List α) :
    a ∈ insortDesc key x l ↔ a = x ∨ a ∈ l := by
  induction l with
  | nil => simp [insortDesc]
  | cons y t ih =>
    by_cases hc : key y ≤ key x
    · simp [insortDesc, hc]
    · simp [insortDesc, hc, ih]
      tauto

theorem mem_sortDescBy {α : Type} (key : α → Nat) (l : List α) (a : α) :
    a ∈ sortDescBy key l ↔ a ∈ l := by
  induction l with
  | nil => simp [sortDescBy]
  | cons x t ih => simp [sortDescBy, mem_insortDesc, ih]

theorem insortDesc_ne_nil {α : Type} (key : α → Nat) (x : α) (l : List α) :
    insortDesc key x l ≠ [] := by
  cases l with
  | nil => simp [insortDesc]
  | cons y t => by_cases hc : key y ≤ key x <;> simp [insortDesc, hc]

theorem sortDescBy_eq_nil_iff {α : Type} (key : α → Nat) (l : List α) :
    sortDescBy key l = [] ↔ l = [] := by
  cases l with
  | nil => simp [sortDescBy]
  | cons x t =>
    constructor
    · intro hh
      exact absurd hh (insortDesc_ne_nil key x _)
    · intro hh
      exact absurd hh (List.cons_ne_nil x t)

/-- The head of an insertion has key at least that of the inserted
element and of the previous head. -/
theorem head?_insortDesc_key {α : Type} (key : α → Nat) (x : α) (l : List α) (h : α)
    (hh : (insortDesc key x l).head? = some h) :
    key x ≤ key h ∧ ∀ y, l.head? = some y → key y ≤ key h := by
  cases l with
  | nil =>
    simp [insortDesc] at hh
    subst hh
    exact ⟨Nat.le_refl _, by intro y hy; simp at hy⟩
  | cons y t =>
    by_cases hc : key y ≤ key x
    · simp [insortDesc, hc] at hh
      subst hh
      refine ⟨Nat.le_refl _, ?_⟩
      intro z hz
      simp at hz
      subst hz
      exact hc
    · simp [insortDesc, hc] at hh
      subst hh
      refine ⟨Nat.le_of_lt (Nat.lt_of_not_le hc), ?_⟩
      intro z hz
      simp at hz
      subst hz
      exact Nat.le_refl _

/-- The head of the stable descending sort is exactly the first element
of the original list attaining the maximal key. -/
theorem head?_sortDescBy {α : Type} (key : α → Nat) (l : List α) :
    (sortDescBy key l).head? = firstMaxBy key l := by
  induction l with
  | nil => rfl
  | cons x xs ih =>
    show (insortDesc key x (sortDescBy key xs)).head? = firstMaxBy key (x :: xs)
    cases hs : sortDescBy key xs with
    | nil =>
      have hxs : xs = [] := (sortDescBy_eq_nil_iff key xs).mp hs
      subst hxs
      simp [insortDesc, firstMaxBy]
    | cons h t =>
      rw [hs] at ih
      have ihfind : List.find? (fun z => xs.all (fun y => decide (key y ≤ key z))) xs
          = some h := by
        have : firstMaxBy key xs = some h := by
          rw [← ih]
          rfl
        simpa [firstMaxBy] using this
      have hmem : h ∈ xs := List.mem_of_find?_eq_some ihfind
      have hmax : ∀ y ∈ xs, key y ≤ key h := by
        have := List.find?_some ihfind
        simpa [List.all_eq_true] using this
      by_cases hc : key h ≤ key x
      · have hP : ((x :: xs).all (fun y => decide (key y ≤ key x))) = true := by
          rw [List.all_eq_true]
          intro y hy
          rcases List.mem_cons.mp hy with hy | hy
          · subst hy
            simp
          · simpa using Nat.le_trans (hmax y hy) hc
        have : firstMaxBy key (x :: xs) = some x := by
          unfold firstMaxBy
          exact List.find?_cons_of_pos xs hP
        rw [this]
        simp [insortDesc, hc]
      · have hPx : ¬ (((x :: xs).all (fun y => decide (key y ≤ key x))) = true) := by
          rw [List.all_eq_true]
          intro hall
          exact hc (by simpa using hall h (List.mem_cons_of_mem x hmem))
        have hcongr : List.find? (fun z => (x :: xs).all (fun y => decide (key y ≤ key z))) xs
            = List.find? (fun z => xs.all (fun y => decide (key y ≤ key z))) xs := by
          apply find?_congr_mem
          intro z hz
          by_cases hq : (xs.all (fun y => decide (key y ≤ key z))) = true
          · have hxz : key x ≤ key z := by
              have hhz : key h ≤ key z := by
                have := List.all_eq_true.mp hq h hmem
                simpa using this
              exact Nat.le_trans (Nat.le_of_lt (Nat.lt_of_not_le hc)) hhz
            rw [hq, List.all_cons]
            simp [hxz, hq]
          · have hq' : (xs.all (fun y => decide (key y ≤ key z))) = false :=
              Bool.eq_false_iff.mpr hq
            rw [List.all_cons, hq', Bool.and_false]
        have : firstMaxBy key (x :: xs) = some h := by
          unfold firstMaxBy
          rw [List.find?_cons_of_neg xs hPx, hcongr, ihfind]
        rw [this]
        simp [insortDesc, hc]

/-- A `firstMaxBy` hit is a member of the list and maximises the key. -/
theorem firstMaxBy_spec {α : Type} (key : α → Nat) (l : List α) (b : α)
    (hb : firstMaxBy key l = some b) : b ∈ l ∧ ∀ y ∈ l, key y ≤ key b := by
  refine ⟨List.mem_of_find?_eq_some hb, ?_⟩
  have := List.find?_some hb
  simpa [List.all_eq_true] using this

/-- A non-empty list has a first key-maximal element. -/
theorem firstMaxBy_of_ne_nil {α : Type} (key : α → Nat) (l : List α) (hl : l ≠ []) :
    ∃ b, firstMaxBy key l = some b := by
  rw [← head?_sortDescBy]
  cases hs : sortDescBy key l with
  | nil => exact absurd ((sortDescBy_eq_nil_iff key l).mp hs) hl
  | cons a t => exact ⟨a, rfl⟩

/-- On a non-empty pool the selector returns the first key-maximal
element of the pool. -/
theorem bestAudio_eq_firstMax (formats : List FormatRecord) (b : FormatRecord)
    (hfm : firstMaxBy sortKey
      (if (formats.filter isAudioOnly).isEmpty then formats.filter hasAudio
       else formats.filter isAudioOnly) = some b) :
    bestAudio formats = some b := by
  unfold bestAudio
  have hne : (if (formats.filter isAudioOnly).isEmpty then formats.filter hasAudio
      else formats.filter isAudioOnly) ≠ [] := by
    intro hnil
    rw [hnil] at hfm
    simp [firstMaxBy] at hfm
  have hemp : (if (formats.filter isAudioOnly).isEmpty then formats.filter hasAudio
      else formats.filter isAudioOnly).isEmpty = false := by
    rw [Bool.eq_false_iff]
    intro htrue
    exact hne (List.isEmpty_iff.mp htrue)
  simp only [hemp, Bool.false_eq_true, if_false]
  rw [head?_sortDescBy]
  exact hfm

/-- Claim C1: for every format list containing at least one record with
an audio codec, the selector returns a record that is audio-only with
maximum bitrate key among the audio-only records when any exist,
otherwise a record with maximum bitrate key among all records with an
audio codec; the key is average bitrate falling back to total bitrate
falling back to zero (`sortKey`), and ties go to the earliest record of
the original list (`firstMaxBy`, the first element of the stable
descending sort). -/
theorem C1_best_audio_selection (formats : List FormatRecord)
    (h : ∃ r ∈ formats, hasAudio r = true) :
    ∃ best, bestAudio formats = some best ∧
      ((formats.filter isAudioOnly ≠ [] ∧ isAudioOnly best = true ∧
          best ∈ formats.filter isAudioOnly ∧
          (∀ y ∈ formats.filter isAudioOnly, sortKey y ≤ sortKey best) ∧
          firstMaxBy sortKey (formats.filter isAudioOnly) = some best) ∨
       (formats.filter isAudioOnly = [] ∧ hasAudio best = true ∧
          best ∈ formats.filter hasAudio ∧
          (∀ y ∈ formats.filter hasAudio, sortKey y ≤ sortKey best) ∧
          firstMaxBy sortKey (formats.filter hasAudio) = some best)) := by
  obtain ⟨r, hr, hra⟩ := h
  by_cases hA : formats.filter isAudioOnly = []
  · have hBne : formats.filter hasAudio ≠ [] := by
      intro hB
      have hrB : r ∈ formats.filter hasAudio := List.mem_filter.mpr ⟨hr, hra⟩
      rw [hB] at hrB
      exact absurd hrB (List.not_mem_nil r)
    obtain ⟨b, hb⟩ := firstMaxBy_of_ne_nil sortKey _ hBne
    obtain ⟨hbmem, hbmax⟩ := firstMaxBy_spec sortKey _ b hb
    refine ⟨b, ?_, Or.inr ⟨hA, (List.mem_filter.mp hbmem).2, hbmem, hbmax, hb⟩⟩
    apply bestAudio_eq_firstMax
    have hAemp : (formats.filter isAudioOnly).isEmpty = true := List.isEmpty_iff.mpr hA
    rw [hAemp]
    simpa using hb
  · obtain ⟨b, hb⟩ := firstMaxBy_of_ne_nil sortKey _ hA
    obtain ⟨hbmem, hbmax⟩ := firstMaxBy_spec sortKey _ b hb
    refine ⟨b, ?_, Or.inl ⟨hA, (List.mem_filter.mp hbmem).2, hbmem, hbmax, hb⟩⟩
    apply bestAudio_eq_firstMax
    have hAemp : (formats.filter isAudioOnly).isEmpty = false := by
      rw [Bool.eq_false_iff]
      intro htrue
      exact hA (List.isEmpty_iff.mp htrue)
    rw [hAemp]
    simpa using hb

/-- The mocked format list of spec §8: a video-only vp9 record, a
160 kbps audio-only opus record and a 128 kbps audio-only mp4a record. -/
def mockedFormats : List FormatRecord :=
  [{ acodec := some "none", vcodec := some "vp9", abr := none },
   { acodec := some "opus", vcodec := some "none", abr := some 160 },
   { acodec := some "mp4a", vcodec := some "none", abr := some 128 }]

/-- Witness for C1 at the spec's mocked format list: the hypothesis holds
and the selector picks the 160 kbps opus record. -/
theorem C1_best_audio_selection_witness :
    ∃ best, bestAudio mockedFormats = some best ∧
      ((mockedFormats.filter isAudioOnly ≠ [] ∧ isAudioOnly best = true ∧
          best ∈ mockedFormats.filter isAudioOnly ∧
          (∀ y ∈ mockedFormats.filter isAudioOnly, sortKey y ≤ sortKey best) ∧
          firstMaxBy sortKey (mockedFormats.filter isAudioOnly) = some best) ∨
       (mockedFormats.filter isAudioOnly = [] ∧ hasAudio best = true ∧
          best ∈ mockedFormats.filter hasAudio ∧
          (∀ y ∈ mockedFormats.filter hasAudio, sortKey y ≤ sortKey best) ∧
          firstMaxBy sortKey (mockedFormats.filter hasAudio) = some best)) :=
  C1_best_audio_selection mockedFormats
    ⟨{ acodec := some "opus", vcodec := some "none", abr := some 160 }, by decide, by decide⟩

/-- Claim C2 counterexample: a 12-character scheme-less input is passed
to the extractor unchanged by `/download` (and `/info`), not normalized
to the canonical watch URL as the claim asserts for every endpoint. -/
theorem C2_normalization_counterexample :
    pyStartswith "abcdefghijkl" "http" = false ∧
    download_audio_requestUrl (some "abcdefghijkl") = some "abcdefghijkl" ∧
    video_info (some "abcdefghijkl") (fun u => (none, some u))
      = (500, [("error", JsonValue.str "abcdefghijkl")]) ∧
    "abcdefghijkl" ≠ watchUrl "abcdefghijkl" := by decide

/-- Claim C2 (amended): `/extract` normalizes every input that does not
start with `http` to the canonical watch URL, while `/download` and
`/info` normalize exactly the inputs of length 11 (scheme or not) and
pass every other input through unchanged. -/
theorem C2_url_normalization :
    (∀ u : String, pyStartswith u "http" = false → normalizeExtract u = watchUrl u) ∧
    (∀ u : String, pyLen u = 11 →
      normalizeDownload u = watchUrl u ∧ normalizeInfo u = watchUrl u) ∧
    (∀ u : String, pyLen u ≠ 11 →
      normalizeDownload u = u ∧ normalizeInfo u = u) := by
  refine ⟨?_, ?_, ?_⟩
  · intro u h
    by_cases hlen : pyLen u = 11 <;> simp [normalizeExtract, h, hlen]
  · intro u h
    simp [normalizeDownload, normalizeInfo, h]
  · intro u h
    simp [normalizeDownload, normalizeInfo, h]

/-- Witness for C2 (amended) at concrete inputs of length 3, 11 and 12. -/
theorem C2_url_normalization_witness :
    normalizeExtract "abc" = watchUrl "abc" ∧
    (normalizeDownload "abcdefghijk" = watchUrl "abcdefghijk" ∧
      normalizeInfo "abcdefghijk" = watchUrl "abcdefghijk") ∧
    (normalizeDownload "abcdefghijkl" = "abcdefghijkl" ∧
      normalizeInfo "abcdefghijkl" = "abcdefghijkl") :=
  ⟨C2_url_normalization.1 "abc" (by decide),
   C2_url_normalization.2.1 "abcdefghijk" (by decide),
   C2_url_normalization.2.2 "abcdefghijkl" (by decide)⟩

/-- Claim C3 counterexample: the 11-character input `http://a.bc` starts
with a URL scheme yet `/download` and `/info` do not pass it through
unchanged; they wrap it into a watch URL. -/
theorem C3_passthrough_counterexample :
    pyStartswith "http://a.bc" "http" = true ∧
    pyLen "http://a.bc" = 11 ∧
    download_audio_requestUrl (some "http://a.bc") = some (watchUrl "http://a.bc") ∧
    video_info (some "http://a.bc") (fun u => (none, some u))
      = (500, [("error", JsonValue.str "https://www.youtube.com/watch?v=http://a.bc")]) ∧
    watchUrl "http://a.bc" ≠ "http://a.bc" := by decide

/-- Claim C3 (amended): `/extract` passes every input starting with
`http` through unchanged; `/download` and `/info` pass an input starting
with a scheme through unchanged only when its length is not 11, and wrap
11-character inputs regardless of scheme. -/
theorem C3_scheme_passthrough :
    (∀ u : String, pyStartswith u "http" = true → normalizeExtract u = u) ∧
    (∀ u : String, pyStartswith u "http" = true → pyLen u ≠ 11 →
      normalizeDownload u = u ∧ normalizeInfo u = u) ∧
    (∀ u : String, pyStartswith u "http" = true → pyLen u = 11 →
      normalizeDownload u = watchUrl u ∧ normalizeInfo u = watchUrl u) := by
  refine ⟨?_, ?_, ?_⟩
  · intro u h
    simp [normalizeExtract, h]
  · intro u _ h
    simp [normalizeDownload, normalizeInfo, h]
  · intro u _ h
    simp [normalizeDownload, normalizeInfo, h]

/-- Witness for C3 (amended) at the concrete inputs
`https://youtu.be/x` (18 characters) and `http://a.bc` (11 characters). -/
theorem C3_scheme_passthrough_witness :
    normalizeExtract "https://youtu.be/x" = "https://youtu.be/x" ∧
    (normalizeDownload "https://youtu.be/x" = "https://youtu.be/x" ∧
      normalizeInfo "https://youtu.be/x" = "https://youtu.be/x") ∧
    (normalizeDownload "http://a.bc" = watchUrl "http://a.bc" ∧
      normalizeInfo "http://a.bc" = watchUrl "http://a.bc") :=
  ⟨C3_scheme_passthrough.1 "https://youtu.be/x" (by decide),
   C3_scheme_passthrough.2.1 "https://youtu.be/x" (by decide) (by decide),
   C3_scheme_passthrough.2.2 "http://a.bc" (by decide) (by decide)⟩

/-- `String.toList` distributes over append. -/
theorem pyToList_append (a b : String) : (a ++ b).toList = a.toList ++ b.toList :=
  String.data_append a b

/-- A string with a non-empty substring is itself Python-truthy. -/
theorem pyTruthyStr_of_pyIn (pat s : String) (hpat : pat.toList ≠ [])
    (h : pyIn pat s = true) : pyTruthyStr (some s) = true := by
  show (!s.toList.isEmpty) = true
  have hinf : pat.toList <:+: s.toList := of_decide_eq_true h
  cases hs : s.toList with
  | nil =>
    rw [hs] at hinf
    exact absurd (List.infix_nil.mp hinf) hpat
  | cons c t => simp [hs]

/-- A string whose lowercasing has a non-empty substring is truthy. -/
theorem pyTruthyStr_of_lower_pyIn (pat s : String) (hpat : pat.toList ≠ [])
    (h : pyIn pat (pyLower s) = true) : pyTruthyStr (some s) = true := by
  show (!s.toList.isEmpty) = true
  have hinf : pat.toList <:+: (pyLower s).toList := of_decide_eq_true h
  cases hs : s.toList with
  | nil =>
    have hlow : (pyLower s).toList = [] := by
      show s.toList.map Char.toLower = []
      rw [hs]
      rfl
    rw [hlow] at hinf
    exact absurd (List.infix_nil.mp hinf) hpat
  | cons c t => simp [hs]

/-- Appending to a truthy string keeps it truthy. -/
theorem pyTruthyStr_append (a b : String) (ha : pyTruthyStr (some a) = true) :
    pyTruthyStr (some (a ++ b)) = true := by
  show (!(a ++ b).toList.isEmpty) = true
  rw [pyToList_append]
  have ha' : (!a.toList.isEmpty) = true := ha
  cases hs : a.toList with
  | nil => rw [hs] at ha'; simp at ha'
  | cons c t => simp

/-- The error branch of `/extract`: a truthy error message from the
extractor yields the classified failure response, for both methods. -/
theorem extract_audio_error (method : Method) (u : String)
    (hu : pyTruthyStr (some u) = true)
    (run : String → Option Info × Option String) (msg : String)
    (hrun : (run (normalizeExtract u)).2 = some msg)
    (hmsg : pyTruthyStr (some msg) = true) :
    extract_audio method (some u) (some u) none none run
      = extractFailureResponse msg := by
  cases method <;>
  · show (if !pyTruthyStr (some u) then _ else _) = _
    rw [hu]
    show (if pyTruthyStr (run (normalizeExtract u)).2 then
        extractFailureResponse ((run (normalizeExtract u)).2.getD "") else _) = _
    rw [hrun, hmsg]
    simp

/-- Claim C4 counterexample: an extractor failure whose message contains
`not a bot` but also `Video unavailable` is answered by `/extract` with
status 404 and a null suggestion, because the unavailable branch of the
`elif` chain wins; only the `blocked` flag is true. -/
theorem C4_bot_check_counterexample :
    pyIn "not a bot" (pyLower "Video unavailable: confirm you are not a bot") = true ∧
    extract_audio .get none (some "dQw4w9WgXcQ") none none
      (fun _ => (none, some "Video unavailable: confirm you are not a bot"))
      = (404,
         [("error", JsonValue.str "Video unavailable: confirm you are not a bot"),
          ("available", JsonValue.bool false),
          ("suggestion", JsonValue.null),
          ("blocked", JsonValue.bool true)]) := by decide

/-- Claim C4 (amended): for every extractor failure whose message
contains `not a bot` in any letter case and contains neither
`Video unavailable` nor `Private video`, `/extract` returns status 403
with `blocked: true` and the non-null suggestion string. -/
theorem C4_bot_check (method : Method) (u : String)
    (hu : pyTruthyStr (some u) = true)
    (run : String → Option Info × Option String) (msg : String)
    (hrun : (run (normalizeExtract u)).2 = some msg)
    (hbot : pyIn "not a bot" (pyLower msg) = true)
    (hunavail : pyIn "Video unavailable" msg = false)
    (hpriv : pyIn "Private video" msg = false) :
    extract_audio method (some u) (some u) none none run
      = (403, [("error", JsonValue.str blockedErrorMsg),
               ("available", JsonValue.bool false),
               ("suggestion", JsonValue.str botSuggestion),
               ("blocked", JsonValue.bool true)]) := by
  have hmsg : pyTruthyStr (some msg) = true :=
    pyTruthyStr_of_lower_pyIn "not a bot" msg (by decide) hbot
  rw [extract_audio_error method u hu run msg hrun hmsg]
  simp [extractFailureResponse, extractStatusSuggestion, blockedFlag, hunavail, hpriv, hbot]

/-- Witness for C4 (amended) at a concrete bot-check failure message. -/
theorem C4_bot_check_witness :
    extract_audio .get (some "dQw4w9WgXcQ") (some "dQw4w9WgXcQ") none none
      (fun _ => (none, some "Sign in to confirm you are not a bot"))
      = (403, [("error", JsonValue.str blockedErrorMsg),
               ("available", JsonValue.bool false),
               ("suggestion", JsonValue.str botSuggestion),
               ("blocked", JsonValue.bool true)]) :=
  C4_bot_check .get "dQw4w9WgXcQ" (by decide) _ "Sign in to confirm you are not a bot"
    rfl (by decide) (by decide) (by decide)

/-- Claim C5 counterexample: an extractor failure whose message contains
`Private video` but also `Video unavailable` is answered with 404, not
403, because the unavailable branch of the `elif` chain wins. -/
theorem C5_private_video_counterexample :
    pyIn "Private video" "Video unavailable: Private video" = true ∧
    (extract_audio .get none (some "dQw4w9WgXcQ") none none
      (fun _ => (none, some "Video unavailable: Private video"))).1 = 404 := by decide

/-- Claim C5 (amended): for every extractor failure whose message
contains `Private video` and does not contain `Video unavailable`,
`/extract` returns status 403 with `available: false`. -/
theorem C5_private_video (method : Method) (u : String)
    (hu : pyTruthyStr (some u) = true)
    (run : String → Option Info × Option String) (msg : String)
    (hrun : (run (normalizeExtract u)).2 = some msg)
    (hpriv : pyIn "Private video" msg = true)
    (hunavail : pyIn "Video unavailable" msg = false) :
    extract_audio method (some u) (some u) none none run
      = (403, [("error", JsonValue.str msg),
               ("available", JsonValue.bool false),
               ("suggestion", JsonValue.null),
               ("blocked", JsonValue.bool (blockedFlag msg))]) := by
  have hmsg : pyTruthyStr (some msg) = true :=
    pyTruthyStr_of_pyIn "Private video" msg (by decide) hpriv
  rw [extract_audio_error method u hu run msg hrun hmsg]
  simp [extractFailureResponse, extractStatusSuggestion, hunavail, hpriv]

/-- Witness for C5 (amended) at a concrete private-video failure. -/
theorem C5_private_video_witness :
    extract_audio .get (some "dQw4w9WgXcQ") (some "dQw4w9WgXcQ") none none
      (fun _ => (none, some "ERROR: Private video. Sign in if you have access"))
      = (403, [("error", JsonValue.str "ERROR: Private video. Sign in if you have access"),
               ("available", JsonValue.bool false),
               ("suggestion", JsonValue.null),
               ("blocked",
                JsonValue.bool (blockedFlag "ERROR: Private video. Sign in if you have access"))]) :=
  C5_private_video .get "dQw4w9WgXcQ" (by decide) _
    "ERROR: Private video. Sign in if you have access" rfl (by decide) (by decide)

/-- Claim C7: a request to `/extract` carrying no `url` parameter (no
query parameter on GET, no JSON body field on POST) is answered with
status 400 and an `error` field, regardless of method. -/
theorem C7_missing_url (method : Method) (bodyFormat queryFormat : Option String)
    (run : String → Option Info × Option String) :
    extract_audio method none none bodyFormat queryFormat run
      = (400, [("error", JsonValue.str "Missing url parameter")]) := by
  cases method <;> rfl

/-- Claim C8: for every successful extraction the `/info` response is the
metadata-only body, and that body never contains an `audioUrl` key, even
when the extractor result carries format records. -/
theorem C8_info_no_audioUrl (q : String) (hq : pyTruthyStr (some q) = true)
    (run : String → Option Info × Option String) (info : Info)
    (hrun : run (normalizeInfo q) = (some info, none)) :
    video_info (some q) run = (200, videoInfoBody info) ∧
    (videoInfoBody info).map Prod.fst
      = ["videoId", "title", "duration", "thumbnail", "channel",
         "description", "viewCount", "uploadDate"] ∧
    List.lookup "audioUrl" (videoInfoBody info) = none := by
  refine ⟨?_, rfl, rfl⟩
  show (if !pyTruthyStr (some q) then _ else _) = _
  rw [hq]
  show (if pyTruthyStr (run (normalizeInfo q)).2 then _
      else (200, videoInfoBody ((run (normalizeInfo q)).1.getD default))) = _
  rw [hrun]
  simp [pyTruthyStr]

/-- Witness for C8 at a concrete extraction result that does contain a
format record with a direct audio URL. -/
theorem C8_info_no_audioUrl_witness :
    video_info (some "dQw4w9WgXcQ")
        (fun _ => (some { id := some "dQw4w9WgXcQ", title := some "t",
                          description := some "d",
                          formats := [{ acodec := some "opus", vcodec := some "none",
                                        abr := some 160, url := some "https://cdn/a" }] },
                   none))
      = (200, videoInfoBody { id := some "dQw4w9WgXcQ", title := some "t",
                              description := some "d",
                              formats := [{ acodec := some "opus", vcodec := some "none",
                                            abr := some 160, url := some "https://cdn/a" }] }) ∧
    (videoInfoBody { id := some "dQw4w9WgXcQ", title := some "t",
                     description := some "d",
                     formats := [{ acodec := some "opus", vcodec := some "none",
                                   abr := some 160, url := some "https://cdn/a" }] }).map Prod.fst
      = ["videoId", "title", "duration", "thumbnail", "channel",
         "description", "viewCount", "uploadDate"] ∧
    List.lookup "audioUrl"
        (videoInfoBody { id := some "dQw4w9WgXcQ", title := some "t",
                         description := some "d",
                         formats := [{ acodec := some "opus", vcodec := some "none",
                                       abr := some 160, url := some "https://cdn/a" }] })
      = none :=
  C8_info_no_audioUrl "dQw4w9WgXcQ" (by decide) _ _ rfl

/-- Claim C9: when the extraction result has a description longer than
500 characters, the `description` field of the `/info` body is exactly
its first 500 characters. -/
theorem C9_description_truncation (q : String) (hq : pyTruthyStr (some q) = true)
    (run : String → Option Info × Option String) (info : Info) (desc : String)
    (hrun : run (normalizeInfo q) = (some info, none))
    (hdesc : info.description = some desc)
    (hlen : 500 < pyLen desc) :
    video_info (some q) run = (200, videoInfoBody info) ∧
    List.lookup "description" (videoInfoBody info)
      = some (JsonValue.str (pySlice desc 500)) ∧
    (pySlice desc 500).toList = desc.toList.take 500 ∧
    pyLen (pySlice desc 500) = 500 := by
  refine ⟨?_, ?_, rfl, ?_⟩
  · show (if !pyTruthyStr (some q) then _ else _) = _
    rw [hq]
    show (if pyTruthyStr (run (normalizeInfo q)).2 then _
        else (200, videoInfoBody ((run (normalizeInfo q)).1.getD default))) = _
    rw [hrun]
    simp [pyTruthyStr]
  · have hbody : List.lookup "description" (videoInfoBody info)
        = some (JsonValue.str (pySlice (info.description.getD "") 500)) := rfl
    rw [hdesc] at hbody
    simpa using hbody
  · show (desc.toList.take 500).length = 500
    rw [List.length_take]
    exact Nat.min_eq_left (Nat.le_of_lt hlen)

/-- The witness description has 501 characters. -/
theorem longDescription_len : pyLen longDescription = 501 := by
  show (List.replicate 501 'a').length = 501
  rw [List.length_replicate]

/-- Witness for C9 at a 501-character description. -/
theorem C9_description_truncation_witness :
    video_info (some "dQw4w9WgXcQ") (fun _ => (some longDescInfo, none))
      = (200, videoInfoBody longDescInfo) ∧
    List.lookup "description" (videoInfoBody longDescInfo)
      = some (JsonValue.str (pySlice longDescription 500)) ∧
    (pySlice longDescription 500).toList = longDescription.toList.take 500 ∧
    pyLen (pySlice longDescription 500) = 500 :=
  C9_description_truncation "dQw4w9WgXcQ" (by decide) _ longDescInfo longDescription
    rfl rfl (by rw [longDescription_len]; decide)

/-- Claim C10: every error response `/extract` produces for a (non-empty)
extractor failure message — the 404 and generic 400 cases included — is
the classified failure response, whose body has exactly the four keys
`error`, `available`, `suggestion`, `blocked`; `available` is `false`;
`blocked` is true exactly when the message contains `LOGIN_REQUIRED` or
contains `not a bot` case-insensitively; the suggestion is null whenever
neither blocking marker is present; and whenever a suggestion string is
set the `error` field is the fixed replacement text, not the original
extractor message. -/
theorem C10_error_response_shape (method : Method) (u : String)
    (hu : pyTruthyStr (some u) = true)
    (run : String → Option Info × Option String) (msg : String)
    (hrun : (run (normalizeExtract u)).2 = some msg)
    (hmsg : pyTruthyStr (some msg) = true) :
    extract_audio method (some u) (some u) none none run = extractFailureResponse msg ∧
    (extractFailureResponse msg).2.map Prod.fst
      = ["error", "available", "suggestion", "blocked"] ∧
    List.lookup "available" (extractFailureResponse msg).2 = some (JsonValue.bool false) ∧
    List.lookup "blocked" (extractFailureResponse msg).2
      = some (JsonValue.bool (pyIn "LOGIN_REQUIRED" msg || pyIn "not a bot" (pyLower msg))) ∧
    (pyIn "LOGIN_REQUIRED" msg = false → pyIn "not a bot" (pyLower msg) = false →
      List.lookup "suggestion" (extractFailureResponse msg).2 = some JsonValue.null) ∧
    (∀ s, List.lookup "suggestion" (extractFailureResponse msg).2
        = some (JsonValue.str s) →
      List.lookup "error" (extractFailureResponse msg).2
        = some (JsonValue.str blockedErrorMsg)) := by
  refine ⟨extract_audio_error method u hu run msg hrun hmsg, rfl, rfl, rfl, ?_, ?_⟩
  · intro h1 h2
    have hsug : (extractStatusSuggestion msg).2 = none := by
      unfold extractStatusSuggestion
      rw [h2, h1]
      split_ifs with hA hB hC
      · rfl
      · rfl
      · exact absurd hC (by decide)
      · rfl
    have hlook : List.lookup "suggestion" (extractFailureResponse msg).2
        = some (match (extractStatusSuggestion msg).2 with
                | none => JsonValue.null
                | some s0 => JsonValue.str s0) := rfl
    rw [hlook, hsug]
  · intro s hs
    have hlook : List.lookup "suggestion" (extractFailureResponse msg).2
        = some (match (extractStatusSuggestion msg).2 with
                | none => JsonValue.null
                | some s0 => JsonValue.str s0) := rfl
    rw [hlook] at hs
    have herr : List.lookup "error" (extractFailureResponse msg).2
        = some (JsonValue.str
            (if (extractStatusSuggestion msg).2.isSome then blockedErrorMsg else msg)) := rfl
    rcases hcase : (extractStatusSuggestion msg).2 with _ | s0
    · rw [hcase] at hs
      simp at hs
    · rw [herr, hcase]
      simp

/-- Witness for C10 at a generic failure message matching no
classification: status 400, original error text, null suggestion,
`blocked` false. -/
theorem C10_error_response_shape_witness :
    extract_audio .get (some "dQw4w9WgXcQ") (some "dQw4w9WgXcQ") none none
        (fun _ => (none, some "boom"))
      = extractFailureResponse "boom" ∧
    (extractFailureResponse "boom").2.map Prod.fst
      = ["error", "available", "suggestion", "blocked"] ∧
    List.lookup "available" (extractFailureResponse "boom").2 = some (JsonValue.bool false) ∧
    List.lookup "blocked" (extractFailureResponse "boom").2
      = some (JsonValue.bool
          (pyIn "LOGIN_REQUIRED" "boom" || pyIn "not a bot" (pyLower "boom"))) ∧
    (pyIn "LOGIN_REQUIRED" "boom" = false → pyIn "not a bot" (pyLower "boom") = false →
      List.lookup "suggestion" (extractFailureResponse "boom").2 = some JsonValue.null) ∧
    (∀ s, List.lookup "suggestion" (extractFailureResponse "boom").2
        = some (JsonValue.str s) →
      List.lookup "error" (extractFailureResponse "boom").2
        = some (JsonValue.str blockedErrorMsg)) :=
  C10_error_response_shape .get "dQw4w9WgXcQ" (by decide) _ "boom" rfl (by decide)

/-- Decomposition of a substring occurrence inside an append: the pattern
lies inside the left part, inside the right part, or straddles the
boundary with a non-trivial split. -/
theorem infix_append_cases {α : Type} (pat pre m : List α) (h : pat <:+: pre ++ m) :
    pat <:+: pre ∨ pat <:+: m ∨
      ∃ i, 0 < i ∧ i < pat.length ∧ pat.take i <:+ pre ∧ pat.drop i <+: m := by
  obtain ⟨s, t, hst⟩ := h
  by_cases h1 : s.length + pat.length ≤ pre.length
  · left
    refine ⟨s, t.take (pre.length - (s ++ pat).length), ?_⟩
    have hpre : ((s ++ pat) ++ t).take pre.length = pre := by
      rw [hst]
      exact List.take_left pre m
    rw [List.take_append_eq_append_take] at hpre
    rw [List.take_of_length_le (by simpa using h1)] at hpre
    exact hpre
  · by_cases h2 : pre.length ≤ s.length
    · right; left
      refine ⟨s.drop pre.length, t, ?_⟩
      have hm : ((s ++ pat) ++ t).drop pre.length = m := by
        rw [hst]
        exact List.drop_left pre m
      rw [List.drop_append_eq_append_drop, List.drop_append_eq_append_drop] at hm
      rw [Nat.sub_eq_zero_of_le h2] at hm
      rw [Nat.sub_eq_zero_of_le (by simp; omega : pre.length ≤ (s ++ pat).length)] at hm
      simp only [List.drop_zero] at hm
      exact hm
    · right; right
      have h1' : pre.length < s.length + pat.length := Nat.lt_of_not_le h1
      have h2' : s.length < pre.length := Nat.lt_of_not_le h2
      have hcle : pre.length ≤ (s ++ pat).length := by
        simp only [List.length_append]
        omega
      refine ⟨pre.length - s.length, by omega, by omega, ?_, ?_⟩
      · refine ⟨s, ?_⟩
        have hpre : ((s ++ pat) ++ t).take pre.length = pre := by
          rw [hst]
          exact List.take_left pre m
        rw [List.take_append_eq_append_take] at hpre
        rw [Nat.sub_eq_zero_of_le hcle, List.take_zero, List.append_nil] at hpre
        rw [List.take_append_eq_append_take] at hpre
        rw [List.take_of_length_le (Nat.le_of_lt h2')] at hpre
        exact hpre
      · refine ⟨t, ?_⟩
        have hm : ((s ++ pat) ++ t).drop pre.length = m := by
          rw [hst]
          exact List.drop_left pre m
        rw [List.drop_append_eq_append_drop] at hm
        rw [Nat.sub_eq_zero_of_le hcle, List.drop_zero] at hm
        rw [List.drop_append_eq_append_drop] at hm
        rw [List.drop_of_length_le (Nat.le_of_lt h2'), List.nil_append] at hm
        exact hm

/-- When the pattern occurs neither inside the left part nor straddling
the boundary, an occurrence in the append is an occurrence in the right
part; so prefixing a message with such a left part neither adds nor
removes matches of the pattern. -/
theorem pyIn_append_left (pat pre m : String)
    (hpre : ¬ pat.toList <:+: pre.toList)
    (hsplit : ∀ i, i < pat.toList.length → 0 < i → ¬ pat.toList.take i <:+ pre.toList) :
    pyIn pat (pre ++ m) = pyIn pat m := by
  unfold pyIn
  rw [decide_eq_decide, pyToList_append]
  constructor
  · intro h
    rcases infix_append_cases pat.toList pre.toList m.toList h with hc | hc | ⟨i, hi0, hilen, htake, _⟩
    · exact absurd hc hpre
    · exact hc
    · exact absurd htake (hsplit i hilen hi0)
  · intro hm
    obtain ⟨a, b, hab⟩ := hm
    refine ⟨pre.toList ++ a, b, ?_⟩
    rw [← hab]
    simp [List.append_assoc]

/-- Lowercasing distributes over append. -/
theorem pyLower_append (a b : String) : pyLower (a ++ b) = pyLower a ++ pyLower b := by
  apply String.ext
  show (a ++ b).toList.map Char.toLower = (pyLower a ++ pyLower b).data
  rw [pyToList_append, List.map_append, String.data_append]
  rfl

/-- The POT marker prefix cannot create a `Video unavailable` match. -/
theorem pyIn_unavailable_potPrefix (m : String) :
    pyIn "Video unavailable" ("POT provider issue: " ++ m) = pyIn "Video unavailable" m :=
  pyIn_append_left _ _ m (by decide) (by decide)

/-- The POT marker prefix cannot create a `Private video` match. -/
theorem pyIn_private_potPrefix (m : String) :
    pyIn "Private video" ("POT provider issue: " ++ m) = pyIn "Private video" m :=
  pyIn_append_left _ _ m (by decide) (by decide)

/-- The POT marker prefix cannot create a `LOGIN_REQUIRED` match. -/
theorem pyIn_login_potPrefix (m : String) :
    pyIn "LOGIN_REQUIRED" ("POT provider issue: " ++ m) = pyIn "LOGIN_REQUIRED" m :=
  pyIn_append_left _ _ m (by decide) (by decide)

/-- The lowercased POT marker prefix cannot create a `not a bot` match. -/
theorem pyIn_bot_potPrefix (m : String) :
    pyIn "not a bot" (pyLower ("POT provider issue: " ++ m))
      = pyIn "not a bot" (pyLower m) := by
  rw [pyLower_append]
  rw [show pyLower "POT provider issue: " = "pot provider issue: " from by decide]
  exact pyIn_append_left _ _ _ (by decide) (by decide)

/-- Claim C6: for every non-zero-exit extractor failure whose captured
error text (stderr, falling back to stdout, falling back to the fixed
unknown-error text) is token-provider-related, `run_ytdlp` reports the
message reclassified with the `POT provider issue: ` marker, and
`/extract` surfaces it as a 400 bad request with that provider-specific
error text when the captured text matches none of the
unavailable/private/bot classifications. -/
theorem C6_pot_provider_reclassification (method : Method) (u : String)
    (hu : pyTruthyStr (some u) = true) (stdoutS stderrS : String)
    (hpot : potRelated (rawErrorMsg stdoutS stderrS) = true)
    (hunavail : pyIn "Video unavailable" (rawErrorMsg stdoutS stderrS) = false)
    (hpriv : pyIn "Private video" (rawErrorMsg stdoutS stderrS) = false)
    (hbot : pyIn "not a bot" (pyLower (rawErrorMsg stdoutS stderrS)) = false)
    (hlogin : pyIn "LOGIN_REQUIRED" (rawErrorMsg stdoutS stderrS) = false) :
    runYtdlpFailureMsg stdoutS stderrS
      = "POT provider issue: " ++ rawErrorMsg stdoutS stderrS ∧
    extract_audio method (some u) (some u) none none
        (fun _ => run_ytdlp_nonzeroExit stdoutS stderrS)
      = (400, [("error",
                JsonValue.str ("POT provider issue: " ++ rawErrorMsg stdoutS stderrS)),
               ("available", JsonValue.bool false),
               ("suggestion", JsonValue.null),
               ("blocked", JsonValue.bool false)]) := by
  have hmsgdef : runYtdlpFailureMsg stdoutS stderrS
      = "POT provider issue: " ++ rawErrorMsg stdoutS stderrS := by
    simp [runYtdlpFailureMsg, hpot]
  refine ⟨hmsgdef, ?_⟩
  have hrun : ((fun _ : String => run_ytdlp_nonzeroExit stdoutS stderrS)
      (normalizeExtract u)).2
      = some ("POT provider issue: " ++ rawErrorMsg stdoutS stderrS) := by
    show (run_ytdlp_nonzeroExit stdoutS stderrS).2 = _
    rw [run_ytdlp_nonzeroExit, hmsgdef]
  have htr : pyTruthyStr
      (some ("POT provider issue: " ++ rawErrorMsg stdoutS stderrS)) = true :=
    pyTruthyStr_append "POT provider issue: " _ (by decide)
  rw [extract_audio_error method u hu _ _ hrun htr]
  have h1 : pyIn "Video unavailable"
      ("POT provider issue: " ++ rawErrorMsg stdoutS stderrS) = false := by
    rw [pyIn_unavailable_potPrefix]
    exact hunavail
  have h2 : pyIn "Private video"
      ("POT provider issue: " ++ rawErrorMsg stdoutS stderrS) = false := by
    rw [pyIn_private_potPrefix]
    exact hpriv
  have h3 : pyIn "not a bot"
      (pyLower ("POT provider issue: " ++ rawErrorMsg stdoutS stderrS)) = false := by
    rw [pyIn_bot_potPrefix]
    exact hbot
  have h4 : pyIn "LOGIN_REQUIRED"
      ("POT provider issue: " ++ rawErrorMsg stdoutS stderrS) = false := by
    rw [pyIn_login_potPrefix]
    exact hlogin
  simp [extractFailureResponse, extractStatusSuggestion, blockedFlag, h1, h2, h3, h4]

/-- Witness for C6 at a concrete POT-provider failure captured on
stderr. -/
theorem C6_pot_provider_reclassification_witness :
    runYtdlpFailureMsg "" "WARNING: pot server unreachable"
      = "POT provider issue: " ++ rawErrorMsg "" "WARNING: pot server unreachable" ∧
    extract_audio .get (some "dQw4w9WgXcQ") (some "dQw4w9WgXcQ") none none
        (fun _ => run_ytdlp_nonzeroExit "" "WARNING: pot server unreachable")
      = (400, [("error",
                JsonValue.str ("POT provider issue: "
                  ++ rawErrorMsg "" "WARNING: pot server unreachable")),
               ("available", JsonValue.bool false),
               ("suggestion", JsonValue.null),
               ("blocked", JsonValue.bool false)]) :=
  C6_pot_provider_reclassification .get "dQw4w9WgXcQ" (by decide)
    "" "WARNING: pot server unreachable"
    (by decide) (by decide) (by decide) (by decide) (by decide)
